import Mathlib

/- Shallow embedding of src/FlaskTester.py (zx80/flask-tester).

   Python dicts are modelled as association lists over String keys with
   unique keys, preserving insertion order (Python 3.7+ dict behaviour).
   A Python value of `str | None` is modelled as `Option String`, with
   `none` standing for Python's `None` (the "absent" sentinel).
   A method that may `raise AuthError` is modelled as returning a pair
   whose first component is `Option FTError`; the second component is the
   caller-visible state of the mutated object or arguments at the moment
   the method returns or the exception propagates (Python mutates its
   receiver and dict arguments in place, so on an exception the caller
   still observes every mutation performed before the `raise`). -/

namespace FlaskTester

/-- Lookup in a Python-style dict: the binding of key `k`, if any. -/
def dget {α : Type} (d : List (String × α)) (k : String) : Option α :=
  match d with
  | [] => none
  | (k1, v1) :: t => if k1 = k then some v1 else dget t k

/-- Python `k in d`. -/
def dmem {α : Type} (d : List (String × α)) (k : String) : Bool :=
  (dget d k).isSome

/-- Python `d[k] = v`: overwrite in place keeping the key position, or append. -/
def dset {α : Type} (d : List (String × α)) (k : String) (v : α) : List (String × α) :=
  match d with
  | [] => [(k, v)]
  | (k1, v1) :: t => if k1 = k then (k, v) :: t else (k1, v1) :: dset t k v

/-- Python `del d[k]` as used in the source, always guarded by `k in d`
    (so deleting a missing key is a no-op here). -/
def ddel {α : Type} (d : List (String × α)) (k : String) : List (String × α) :=
  match d with
  | [] => []
  | (k1, v1) :: t => if k1 = k then t else (k1, v1) :: ddel t k

/-- Python `d.update(other)`: set every binding of `other` into `d`, in order. -/
def dupdate {α : Type} (d other : List (String × α)) : List (String × α) :=
  other.foldl (fun acc kv => dset acc kv.1 kv.2) d

/-- The package raises `AuthError` (a subclass of `FlaskTesterError`) for all
    authentication and configuration failures; messages distinguish the cases. -/
inductive FTError where
  | authError (msg : String)
deriving DecidableEq, Repr

/-- Models Authenticator._TOKEN_SCHEMES. -/
def TOKEN_SCHEMES : List String := ["bearer", "header", "cookie", "tparam"]

/-- Models Authenticator._PASS_SCHEMES. -/
def PASS_SCHEMES : List String := ["basic", "param"]

/-- Models Authenticator._AUTH_SCHEMES: fake and none plus the token and password schemes. -/
def AUTH_SCHEMES : List String :=
  ["fake", "none", "bearer", "header", "cookie", "tparam", "basic", "param"]

/-- The `__init__` loop computing `_has_token`: some allowed scheme carries a token. -/
def hasTokenScheme (allow : List String) : Bool :=
  allow.any fun s => TOKEN_SCHEMES.contains s

/-- The `__init__` loop computing `_has_pass`: some allowed scheme carries a password. -/
def hasPassScheme (allow : List String) : Bool :=
  allow.any fun s => PASS_SCHEMES.contains s

/-- State of an `Authenticator` object: the construction-time configuration
    (`allow` and the carrier names, all immutable after `__init__`) and the
    three credential stores `_passes`, `_tokens`, `_cookies`.
    `_has_pass` and `_has_token` are recomputed from `allow` by
    `hasPassScheme` / `hasTokenScheme`, which is faithful because no
    operation ever mutates `allow`. The optional `_auth_hook` is modelled in
    its default unregistered state (`None`). -/
structure Authenticator where
  allow : List String
  user : String
  pwd : String
  login : String
  bearer : String
  header : String
  cookie : String
  tparam : String
  ptype : String
  passes : List (String × String)
  tokens : List (String × String)
  cookies : List (String × List (String × String))
deriving DecidableEq

/-- Models Authenticator.__init__: records the configuration, stores start empty. -/
def Authenticator.make (allow : List String)
    (user pwd login bearer header cookie tparam ptype : String) : Authenticator :=
  { allow := allow, user := user, pwd := pwd, login := login, bearer := bearer,
    header := header, cookie := cookie, tparam := tparam, ptype := ptype,
    passes := [], tokens := [], cookies := [] }

/-- The `__init__` assertions: every allowed scheme is a recognized scheme,
    and ptype is "json" or "data". -/
def ctorOk (allow : List String) (ptype : String) : Bool :=
  allow.all (fun s => AUTH_SCHEMES.contains s) && (ptype == "json" || ptype == "data")

/-- Models Authenticator._set: set a key/value in a store dict, with None for delete. -/
def storeSet {α : Type} (key : String) (val : Option α)
    (store : List (String × α)) : List (String × α) :=
  match val with
  | none => ddel store key
  | some v => dset store key v

/-- Models Authenticator.setPass: associate a password to a user (None removes it),
    after checking that some password scheme is allowed. -/
def Authenticator.setPass (a : Authenticator) (login : String) (pw : Option String) :
    Option FTError × Authenticator :=
  if !(hasPassScheme a.allow) then
    (some (FTError.authError "cannot set password, no password scheme allowed"), a)
  else
    (none, { a with passes := storeSet login pw a.passes })

/-- Models Authenticator.setToken: associate a token to a user (None removes it),
    after checking that some token scheme is allowed. -/
def Authenticator.setToken (a : Authenticator) (login : String) (token : Option String) :
    Option FTError × Authenticator :=
  if !(hasTokenScheme a.allow) then
    (some (FTError.authError "cannot set token, no token scheme allowed"), a)
  else
    (none, { a with tokens := storeSet login token a.tokens })

/-- Models Authenticator.setCookie: ensure the login has a (possibly empty) cookie
    dict, then set or delete the named cookie inside it. -/
def Authenticator.setCookie (a : Authenticator) (login name : String) (val : Option String) :
    Authenticator :=
  let cs := if dmem a.cookies login then a.cookies else dset a.cookies login []
  { a with cookies := dset cs login (storeSet name val ((dget cs login).getD [])) }

/-- Request keyword arguments, restricted to the keys `setAuth` reads or
    writes: the optional "headers" dict, the optional "json" body, the
    optional "data" (form) body, and the basic-auth pair under "auth". -/
structure Kwargs where
  headers : Option (List (String × String))
  json : Option (List (String × String))
  data : Option (List (String × String))
  auth : Option (String × String)
deriving DecidableEq

/-- Models Authenticator._param: add a request parameter into the json body if
    present, else into the data body if present, else create the body named
    by `_ptype` with just that field (`__init__` asserts ptype is "json" or
    "data"). -/
def Authenticator.paramAdd (a : Authenticator) (kwargs : Kwargs) (key val : String) : Kwargs :=
  match kwargs.json with
  | some j => { kwargs with json := some (dset j key val) }
  | none =>
    match kwargs.data with
    | some d => { kwargs with data := some (dset d key val) }
    | none =>
      if a.ptype == "json" then { kwargs with json := some [(key, val)] }
      else { kwargs with data := some [(key, val)] }

/-- Models Authenticator._try_auth: whether to try this authentication scheme. -/
def Authenticator.tryAuth (a : Authenticator) (auth : Option String) (scheme : String) : Bool :=
  (auth == none || auth == some scheme) && a.allow.contains scheme

/-- The tuple test `auth in (None, "bearer", "header", "cookie", "tparam")`. -/
def tokenAuthSel (auth : Option String) : Bool :=
  auth == none || auth == some "bearer" || auth == some "header" ||
    auth == some "cookie" || auth == some "tparam"

/-- The tuple test `auth in (None, "basic", "param")`. -/
def passAuthSel (auth : Option String) : Bool :=
  auth == none || auth == some "basic" || auth == some "param"

/-- The final `if headers: kwargs["headers"] = headers` write-back. When the
    caller already had a headers dict the Python code mutated that same dict
    in place, so the write-back is a no-op; the result is the same either way. -/
def putHeaders (kwargs : Kwargs) (headers : List (String × String)) : Kwargs :=
  if headers.isEmpty then kwargs else { kwargs with headers := some headers }

/-- Outcome of setAuth: `err` is `some e` when the Python code raises
    `AuthError e`; `kwargs` and `cookies` are the caller-visible state of the
    two mutable arguments when setAuth returns normally or when the exception
    propagates (no error path in the source runs after a kwargs mutation). -/
structure SetAuthOut where
  err : Option FTError
  kwargs : Kwargs
  cookies : List (String × String)
deriving DecidableEq

/-- Models Authenticator.setAuth: set request authentication for `login` (None means
    no authentication at all), mutating `kwargs` and `cookies`. -/
def Authenticator.setAuth (a : Authenticator) (login : Option String) (kwargs : Kwargs)
    (cookies : List (String × String)) (auth : Option String) : SetAuthOut :=
  match login with
  | none => ⟨none, kwargs, cookies⟩
  | some lg =>
    let cookies := dupdate cookies ((dget a.cookies lg).getD [])
    if auth.isSome && !(AUTH_SCHEMES.contains (auth.getD "")) then
      ⟨some (FTError.authError ("unexpected auth: " ++ auth.getD "")), kwargs, cookies⟩
    else if auth.isSome && !(a.allow.contains (auth.getD "")) then
      ⟨some (FTError.authError ("auth is not allowed: " ++ auth.getD "")), kwargs, cookies⟩
    else
      let headers := (kwargs.headers).getD []
      if dmem a.tokens lg && tokenAuthSel auth then
        let token := (dget a.tokens lg).getD ""
        if a.tryAuth auth "bearer" then
          ⟨none, putHeaders kwargs (dset headers "Authorization" (a.bearer ++ " " ++ token)),
            cookies⟩
        else if a.tryAuth auth "header" then
          ⟨none, putHeaders kwargs (dset headers a.header token), cookies⟩
        else if a.tryAuth auth "tparam" then
          ⟨none, putHeaders (a.paramAdd kwargs a.tparam token) headers, cookies⟩
        else if a.tryAuth auth "cookie" then
          ⟨none, putHeaders kwargs headers, dset cookies a.cookie token⟩
        else
          ⟨some (FTError.authError "no token carrier"), kwargs, cookies⟩
      else if dmem a.passes lg && passAuthSel auth then
        if a.tryAuth auth "basic" then
          ⟨none, putHeaders { kwargs with auth := some (lg, (dget a.passes lg).getD "") } headers,
            cookies⟩
        else if a.tryAuth auth "param" then
          ⟨none,
            putHeaders (a.paramAdd (a.paramAdd kwargs a.user lg) a.pwd ((dget a.passes lg).getD ""))
              headers,
            cookies⟩
        else
          ⟨some (FTError.authError "no password carrier"), kwargs, cookies⟩
      else if a.tryAuth auth "fake" then
        ⟨none, putHeaders (a.paramAdd kwargs a.login lg) headers, cookies⟩
      else if a.tryAuth auth "none" then
        ⟨none, putHeaders kwargs headers, cookies⟩
      else
        ⟨some (FTError.authError "no authentication"), kwargs, cookies⟩

/-- Raw transport response, as consumed by RequestFlaskResponse.__init__.
    Calling `.json()` on it either returns a decoded value or raises; that
    behaviour is recorded in `jsonResult` (`Except.error` models a raise). -/
structure RawResponse (α : Type) where
  status_code : Int
  content : String
  text : String
  headers : List (String × String)
  cookies : List (String × String)
  jsonResult : Except String α

/-- Models the RequestFlaskResponse public attributes. -/
structure RequestFlaskResponse (α : Type) where
  status_code : Int
  data : String
  text : String
  headers : List (String × String)
  cookies : List (String × String)
  json : Option α
  is_json : Bool

/-- Models RequestFlaskResponse.__init__: copy the simple attributes, then try JSON
    decoding; any exception is caught and normalized to no-JSON. -/
def RequestFlaskResponse.ofRaw {α : Type} (r : RawResponse α) : RequestFlaskResponse α :=
  match r.jsonResult with
  | Except.ok v =>
    ⟨r.status_code, r.content, r.text, r.headers, r.cookies, some v, true⟩
  | Except.error _ =>
    ⟨r.status_code, r.content, r.text, r.headers, r.cookies, none, false⟩

/-! Basic dictionary lemmas. -/

/-- Keys of a dict, in order. -/
def dkeys {α : Type} (d : List (String × α)) : List String := d.map Prod.fst

theorem dmem_false {α : Type} {d : List (String × α)} {k : String} :
    dmem d k = false ↔ dget d k = none := by
  unfold dmem
  cases dget d k <;> simp

theorem dget_dset_self {α : Type} (d : List (String × α)) (k : String) (v : α) :
    dget (dset d k v) k = some v := by
  induction d with
  | nil => simp [dset, dget]
  | cons hd t ih =>
    obtain ⟨k1, v1⟩ := hd
    by_cases hk : k1 = k
    · simp [dset, hk, dget]
    · simp [dset, hk, dget, ih]

theorem dset_isEmpty {α : Type} (d : List (String × α)) (k : String) (v : α) :
    (dset d k v).isEmpty = false := by
  cases d with
  | nil => simp [dset]
  | cons hd t =>
    obtain ⟨k1, v1⟩ := hd
    by_cases hk : k1 = k <;> simp [dset, hk]

theorem ddel_dset_of_not_mem {α : Type} (d : List (String × α)) (k : String) (v : α)
    (h : dmem d k = false) : ddel (dset d k v) k = d := by
  induction d with
  | nil => simp [dset, ddel]
  | cons hd t ih =>
    obtain ⟨k1, v1⟩ := hd
    rw [dmem_false] at h
    by_cases hk : k1 = k
    · simp [dget, hk] at h
    · simp only [dget] at h
      rw [if_neg hk] at h
      simp [dset, ddel, hk, ih (dmem_false.mpr h)]

theorem dmem_iff_mem_dkeys {α : Type} {d : List (String × α)} {k : String} :
    dmem d k = true ↔ k ∈ dkeys d := by
  induction d with
  | nil => simp [dmem, dget, dkeys]
  | cons hd t ih =>
    obtain ⟨k1, v1⟩ := hd
    by_cases hk : k1 = k
    · simp [dmem, dget, dkeys, hk]
    · simpa [dmem, dget, dkeys, hk, Ne.symm hk] using ih

theorem mem_dkeys_dset {α : Type} {d : List (String × α)} {k x : String} {v : α}
    (h : x ∈ dkeys (dset d k v)) : x ∈ dkeys d ∨ x = k := by
  induction d with
  | nil => simpa [dset, dkeys] using h
  | cons hd t ih =>
    obtain ⟨k1, v1⟩ := hd
    simp only [dset] at h
    by_cases hk : k1 = k
    · rw [if_pos hk] at h
      simp only [dkeys, List.map_cons, List.mem_cons] at h ⊢
      rcases h with h | h
      · exact Or.inr h
      · exact Or.inl (Or.inr h)
    · rw [if_neg hk] at h
      simp only [dkeys, List.map_cons, List.mem_cons] at h ⊢
      rcases h with h | h
      · exact Or.inl (Or.inl h)
      · rcases ih h with h2 | h2
        · exact Or.inl (Or.inr h2)
        · exact Or.inr h2

theorem mem_dkeys_ddel {α : Type} {d : List (String × α)} {k x : String}
    (h : x ∈ dkeys (ddel d k)) : x ∈ dkeys d := by
  induction d with
  | nil => simp [ddel, dkeys] at h
  | cons hd t ih =>
    obtain ⟨k1, v1⟩ := hd
    simp only [ddel] at h
    by_cases hk : k1 = k
    · rw [if_pos hk] at h
      simp only [dkeys, List.map_cons, List.mem_cons]
      exact Or.inr h
    · rw [if_neg hk] at h
      simp only [dkeys, List.map_cons, List.mem_cons] at h ⊢
      rcases h with h | h
      · exact Or.inl h
      · exact Or.inr (ih h)

theorem nodup_dkeys_dset {α : Type} {d : List (String × α)} (k : String) (v : α)
    (h : (dkeys d).Nodup) : (dkeys (dset d k v)).Nodup := by
  induction d with
  | nil => simp [dset, dkeys]
  | cons hd t ih =>
    obtain ⟨k1, v1⟩ := hd
    simp only [dkeys, List.map_cons, List.nodup_cons] at h
    by_cases hk : k1 = k
    · simp only [dset, hk, if_pos, dkeys, List.map_cons, List.nodup_cons]
      exact ⟨by rw [← hk]; exact h.1, h.2⟩
    · simp only [dset, hk, if_neg, not_false_iff, dkeys, List.map_cons, List.nodup_cons]
      refine ⟨fun hmem => ?_, ih h.2⟩
      rcases mem_dkeys_dset hmem with h2 | h2
      · exact h.1 h2
      · exact hk h2

theorem nodup_dkeys_ddel {α : Type} {d : List (String × α)} (k : String)
    (h : (dkeys d).Nodup) : (dkeys (ddel d k)).Nodup := by
  induction d with
  | nil => simp [ddel, dkeys]
  | cons hd t ih =>
    obtain ⟨k1, v1⟩ := hd
    simp only [dkeys, List.map_cons, List.nodup_cons] at h
    by_cases hk : k1 = k
    · simp only [ddel, hk, if_pos]
      exact h.2
    · simp only [ddel, hk, if_neg, not_false_iff, dkeys, List.map_cons, List.nodup_cons]
      exact ⟨fun hmem => h.1 (mem_dkeys_ddel hmem), ih h.2⟩

theorem dmem_ddel_self {α : Type} {d : List (String × α)} (k : String)
    (h : (dkeys d).Nodup) : dmem (ddel d k) k = false := by
  induction d with
  | nil => simp [ddel, dmem, dget]
  | cons hd t ih =>
    obtain ⟨k1, v1⟩ := hd
    simp only [dkeys, List.map_cons, List.nodup_cons] at h
    by_cases hk : k1 = k
    · simp only [ddel, hk, if_pos]
      rw [dmem_false]
      by_contra hne
      have : dmem t k = true := by
        unfold dmem
        cases hc : dget t k
        · exact absurd hc hne
        · rfl
      exact h.1 (hk ▸ (dmem_iff_mem_dkeys.mp this))
    · simp only [ddel, hk, if_neg, not_false_iff]
      rw [dmem_false] at ih ⊢
      simp [dget, hk, ih h.2]

theorem mem_dset_elim {α : Type} {d : List (String × α)} {k : String} {v : α} {p : String × α}
    (h : p ∈ dset d k v) : p ∈ d ∨ p = (k, v) := by
  induction d with
  | nil => simpa [dset] using h
  | cons hd t ih =>
    obtain ⟨k1, v1⟩ := hd
    by_cases hk : k1 = k
    · simp only [dset, hk, if_pos, List.mem_cons] at h
      rcases h with h | h
      · right; exact h
      · left; exact List.mem_cons_of_mem _ h
    · simp only [dset, hk, if_neg, not_false_iff, List.mem_cons] at h
      rcases h with h | h
      · left; simp [h]
      · rcases ih h with h2 | h2
        · left; exact List.mem_cons_of_mem _ h2
        · right; exact h2

theorem dget_mem {α : Type} {d : List (String × α)} {k : String} {v : α}
    (h : dget d k = some v) : (k, v) ∈ d := by
  induction d with
  | nil => simp [dget] at h
  | cons hd t ih =>
    obtain ⟨k1, v1⟩ := hd
    by_cases hk : k1 = k
    · simp only [dget, hk, if_pos, Option.some.injEq] at h
      simp [← hk, ← h]
    · simp only [dget, hk, if_neg, not_false_iff] at h
      exact List.mem_cons_of_mem _ (ih h)

/-! Reachable authenticator states and the store invariant. -/

/-- Authenticator states produced by a constructor call followed by any
    sequence of credential setter calls (`setPass`, `setToken`, `setCookie`;
    `setPasses` is a loop of `setPass` calls). A setter that raises leaves
    the state unchanged, so the error branches need no separate cases. -/
inductive Reachable : Authenticator → Prop where
  | base (allow user pwd login bearer header cookie tparam ptype) :
      ctorOk allow ptype = true →
      Reachable (Authenticator.make allow user pwd login bearer header cookie tparam ptype)
  | stepPass {a : Authenticator} (login : String) (pw : Option String) :
      Reachable a → Reachable (a.setPass login pw).2
  | stepToken {a : Authenticator} (login : String) (tk : Option String) :
      Reachable a → Reachable (a.setToken login tk).2
  | stepCookie {a : Authenticator} (login name : String) (val : Option String) :
      Reachable a → Reachable (a.setCookie login name val)

/-- Structural invariant of the credential stores: all dicts have unique
    keys, and a store can only be populated when its scheme category is
    allowed (the setters enforce the category check before mutating). -/
def storeInv (a : Authenticator) : Prop :=
  (dkeys a.passes).Nodup ∧ (dkeys a.tokens).Nodup ∧ (dkeys a.cookies).Nodup ∧
  (∀ p ∈ a.cookies, (dkeys p.2).Nodup) ∧
  (hasPassScheme a.allow = false → a.passes = []) ∧
  (hasTokenScheme a.allow = false → a.tokens = [])

theorem nodup_dkeys_storeSet {α : Type} {d : List (String × α)} (k : String) (v : Option α)
    (h : (dkeys d).Nodup) : (dkeys (storeSet k v d)).Nodup := by
  cases v with
  | none => exact nodup_dkeys_ddel k h
  | some v => exact nodup_dkeys_dset k v h

theorem reachable_storeInv {a : Authenticator} (h : Reachable a) : storeInv a := by
  induction h with
  | base allow user pwd login bearer header cookie tparam ptype hc =>
    simp [storeInv, Authenticator.make, dkeys]
  | stepPass login pw hr ih =>
    rename_i a
    unfold Authenticator.setPass
    by_cases hp : hasPassScheme a.allow
    · simp only [hp, Bool.not_true, Bool.false_eq_true, if_false]
      obtain ⟨i1, i2, i3, i4, i5, i6⟩ := ih
      exact ⟨nodup_dkeys_storeSet _ _ i1, i2, i3, i4,
        fun hf => absurd hp (by simp [hf]), i6⟩
    · simp only [Bool.not_eq_true] at hp
      simp only [hp, Bool.not_false, if_true]
      exact ih
  | stepToken login tk hr ih =>
    rename_i a
    unfold Authenticator.setToken
    by_cases hp : hasTokenScheme a.allow
    · simp only [hp, Bool.not_true, Bool.false_eq_true, if_false]
      obtain ⟨i1, i2, i3, i4, i5, i6⟩ := ih
      exact ⟨i1, nodup_dkeys_storeSet _ _ i2, i3, i4, i5,
        fun hf => absurd hp (by simp [hf])⟩
    · simp only [Bool.not_eq_true] at hp
      simp only [hp, Bool.not_false, if_true]
      exact ih
  | stepCookie login name val hr ih =>
    rename_i a
    obtain ⟨i1, i2, i3, i4, i5, i6⟩ := ih
    unfold Authenticator.setCookie
    have hcs : (dkeys (if dmem a.cookies login then a.cookies
        else dset a.cookies login [])).Nodup := by
      by_cases hm : dmem a.cookies login <;> simp [hm, i3, nodup_dkeys_dset]
    have hcsmem : ∀ p ∈ (if dmem a.cookies login then a.cookies
        else dset a.cookies login []), (dkeys p.2).Nodup := by
      by_cases hm : dmem a.cookies login
      · simpa [hm] using i4
      · simp only [hm, if_false, Bool.false_eq_true]
        intro p hp
        rcases mem_dset_elim hp with h2 | h2
        · exact i4 p h2
        · simp [h2, dkeys]
    refine ⟨i1, i2, nodup_dkeys_dset _ _ hcs, ?_, i5, i6⟩
    intro p hp
    rcases mem_dset_elim hp with h2 | h2
    · exact hcsmem p h2
    · have hinner : (dkeys ((dget (if dmem a.cookies login then a.cookies
          else dset a.cookies login []) login).getD [])).Nodup := by
        cases hg : dget (if dmem a.cookies login then a.cookies
            else dset a.cookies login []) login with
        | none => simp [dkeys]
        | some i => simpa using hcsmem _ (dget_mem hg)
      rw [h2]
      exact nodup_dkeys_storeSet _ _ hinner

/-! Shared concrete instances for witnesses and counterexamples. -/

/-- The default allowed-scheme list of the constructor. -/
def defaultAllow : List String := ["bearer", "basic", "param", "none"]

/-- An authenticator with the documented default carrier names. -/
def mkDefault (allow : List String) (ptype : String) : Authenticator :=
  Authenticator.make allow "USER" "PASS" "LOGIN" "Bearer" "Auth" "auth" "AUTH" ptype

/-- A request parameter bag with no headers, no body and no basic-auth pair. -/
def emptyKwargs : Kwargs := ⟨none, none, none, none⟩

/-! Claim theorems. -/

/-- Claim C9: calling setAuth with the absent-identity login (None) leaves
    both the parameter bag and the cookie bag completely unmodified and
    raises nothing, whatever schemes are allowed and whatever credentials
    are stored. -/
theorem claim_C9 (a : Authenticator) (kwargs : Kwargs) (cookies : List (String × String))
    (auth : Option String) :
    a.setAuth none kwargs cookies auth = ⟨none, kwargs, cookies⟩ := rfl

/-- Claim C8: a raw response whose JSON decoding raises any exception yields
    is_json = false and json = none from the response adapter; the adapter is
    a total function, so the decode exception never propagates. -/
theorem claim_C8 {α : Type} (r : RawResponse α) (e : String)
    (h : r.jsonResult = Except.error e) :
    (RequestFlaskResponse.ofRaw r).is_json = false ∧
      (RequestFlaskResponse.ofRaw r).json = none := by
  unfold RequestFlaskResponse.ofRaw
  rw [h]
  exact ⟨rfl, rfl⟩

theorem claim_C8_witness :
    (RawResponse.mk 200 "oops" "oops" [] [] (Except.error "boom") : RawResponse String).jsonResult
        = Except.error "boom" ∧
    (RequestFlaskResponse.ofRaw
        (RawResponse.mk 200 "oops" "oops" [] [] (Except.error "boom") : RawResponse String)).is_json
        = false ∧
    (RequestFlaskResponse.ofRaw
        (RawResponse.mk 200 "oops" "oops" [] [] (Except.error "boom") : RawResponse String)).json
        = none :=
  ⟨rfl, (claim_C8 _ "boom" rfl).1, (claim_C8 _ "boom" rfl).2⟩

/-- Claim C2: when no password-carrying scheme is allowed, setPass raises
    (the error the spec calls ConfigurationError, realized in the code as
    AuthError with the "cannot set password" message) and the authenticator
    state, including the store for every login, is returned unchanged; when no
    token-carrying scheme is allowed, setToken behaves the same way for
    tokens. The error is raised before any store mutation. -/
theorem claim_C2 (a : Authenticator) (login : String) (v : Option String) :
    (hasPassScheme a.allow = false →
      a.setPass login v =
        (some (FTError.authError "cannot set password, no password scheme allowed"), a)) ∧
    (hasTokenScheme a.allow = false →
      a.setToken login v =
        (some (FTError.authError "cannot set token, no token scheme allowed"), a)) := by
  constructor
  · intro h
    simp [Authenticator.setPass, h]
  · intro h
    simp [Authenticator.setToken, h]

theorem claim_C2_witness :
    hasTokenScheme (mkDefault ["basic"] "data").allow = false ∧
    (mkDefault ["basic"] "data").setToken "bob" (some "tok") =
      (some (FTError.authError "cannot set token, no token scheme allowed"),
        mkDefault ["basic"] "data") ∧
    hasPassScheme (mkDefault ["bearer"] "data").allow = false ∧
    (mkDefault ["bearer"] "data").setPass "bob" (some "pw") =
      (some (FTError.authError "cannot set password, no password scheme allowed"),
        mkDefault ["bearer"] "data") :=
  ⟨by decide,
   (claim_C2 (mkDefault ["basic"] "data") "bob" (some "tok")).2 (by decide),
   by decide,
   (claim_C2 (mkDefault ["bearer"] "data") "bob" (some "pw")).1 (by decide)⟩

/-- Claim C6: from any state where the login has no stored token (the state
    in which the token was never set), setToken(login, X) followed by
    setToken(login, None) succeeds and returns exactly the original state, so
    any subsequent setAuth call behaves exactly as if no token had existed. -/
theorem claim_C6 (a : Authenticator) (login tok : String)
    (h1 : hasTokenScheme a.allow = true) (h2 : dmem a.tokens login = false) :
    (a.setToken login (some tok)).1 = none ∧
    ((a.setToken login (some tok)).2.setToken login none).1 = none ∧
    ((a.setToken login (some tok)).2.setToken login none).2 = a ∧
    (∀ (lo : Option String) (kw : Kwargs) (ck : List (String × String)) (au : Option String),
      (((a.setToken login (some tok)).2.setToken login none).2).setAuth lo kw ck au =
        a.setAuth lo kw ck au) := by
  have e1 : a.setToken login (some tok) =
      (none, { a with tokens := dset a.tokens login tok }) := by
    simp [Authenticator.setToken, h1, storeSet]
  have e2 : ({ a with tokens := dset a.tokens login tok } : Authenticator).setToken login none =
      (none, a) := by
    have h1b : hasTokenScheme
        ({ a with tokens := dset a.tokens login tok } : Authenticator).allow = true := h1
    simp only [Authenticator.setToken, h1b, Bool.not_true, Bool.false_eq_true, if_false,
      storeSet]
    rw [ddel_dset_of_not_mem _ _ _ h2]
  exact ⟨by rw [e1], by rw [e1, e2], by rw [e1, e2],
    fun lo kw ck au => by rw [e1, e2]⟩

theorem claim_C6_witness :
    hasTokenScheme (mkDefault defaultAllow "data").allow = true ∧
    dmem (mkDefault defaultAllow "data").tokens "bob" = false ∧
    (((mkDefault defaultAllow "data").setToken "bob" (some "T")).2.setToken "bob" none).2 =
      mkDefault defaultAllow "data" :=
  ⟨by decide, by decide,
   (claim_C6 (mkDefault defaultAllow "data") "bob" "T" (by decide) (by decide)).2.2.1⟩

theorem contains_eq_true_iff_mem {l : List String} {x : String} :
    l.contains x = true ↔ x ∈ l :=
  ⟨List.mem_of_elem_eq_true, List.elem_eq_true_of_mem⟩

theorem contains_eq_false_iff_not_mem {l : List String} {x : String} :
    l.contains x = false ↔ ¬ (x ∈ l) := by
  rw [← contains_eq_true_iff_mem]
  cases h : l.contains x <;> simp

theorem hasPassScheme_of_basic {allow : List String} (hb : allow.contains "basic" = true) :
    hasPassScheme allow = true := by
  unfold hasPassScheme
  rw [List.any_eq_true]
  exact ⟨"basic", List.mem_of_elem_eq_true hb, by decide⟩

/-- Projection fact: putHeaders never changes the basic-auth pair. -/
theorem putHeaders_auth (kwargs : Kwargs) (headers : List (String × String)) :
    (putHeaders kwargs headers).auth = kwargs.auth := by
  unfold putHeaders
  split <;> rfl

/-- Claim C7: with basic allowed and no token stored for the login, setting a
    password via setPass and then calling setAuth with scheme "basic" succeeds
    and places exactly the pair (login, password) as the request's basic-auth
    credential field (the "auth" kwargs entry). -/
theorem claim_C7 (a : Authenticator) (login pw : String) (kwargs : Kwargs)
    (cookies : List (String × String))
    (hb : a.allow.contains "basic" = true)
    (ht : dmem a.tokens login = false) :
    (a.setPass login (some pw)).1 = none ∧
    ((a.setPass login (some pw)).2.setAuth (some login) kwargs cookies (some "basic")).err =
      none ∧
    ((a.setPass login (some pw)).2.setAuth (some login) kwargs cookies
        (some "basic")).kwargs.auth = some (login, pw) := by
  have hp : hasPassScheme a.allow = true := hasPassScheme_of_basic hb
  have e1 : a.setPass login (some pw) =
      (none, { a with passes := dset a.passes login pw }) := by
    simp [Authenticator.setPass, hp, storeSet]
  refine ⟨by rw [e1], ?_, ?_⟩ <;>
  · rw [e1]
    have hAmem : "basic" ∈ AUTH_SCHEMES := by decide
    have hbmem : "basic" ∈ a.allow := contains_eq_true_iff_mem.mp hb
    have hmem : dmem (dset a.passes login pw) login = true := by
      simp [dmem, dget_dset_self]
    have htok : tokenAuthSel (some "basic") = false := by decide
    have hpas : passAuthSel (some "basic") = true := by decide
    simp [Authenticator.setAuth, Authenticator.tryAuth, hAmem, hbmem, hb, ht, htok, hpas,
      hmem, putHeaders_auth, dget_dset_self]

theorem claim_C7_witness :
    (mkDefault defaultAllow "data").allow.contains "basic" = true ∧
    dmem (mkDefault defaultAllow "data").tokens "alice" = false ∧
    (((mkDefault defaultAllow "data").setPass "alice" (some "pw")).2.setAuth
        (some "alice") emptyKwargs [] (some "basic")).kwargs.auth = some ("alice", "pw") :=
  ⟨by decide, by decide,
   (claim_C7 (mkDefault defaultAllow "data") "alice" "pw" emptyKwargs [] (by decide)
     (by decide)).2.2⟩

/-- Claim C10: for a login with stored per-login cookies, setAuth merges the
    stored cookies into the caller's cookie bag before validating an explicit
    scheme, so when the scheme is unknown or not allowed the AuthError comes
    back with the cookie bag already updated (setAuth is not atomic on error
    with respect to the cookies argument) while kwargs is untouched. -/
theorem claim_C10 (a : Authenticator) (login s : String) (cs : List (String × String))
    (kwargs : Kwargs) (cookies : List (String × String))
    (hcs : dget a.cookies login = some cs)
    (hbad : AUTH_SCHEMES.contains s = false ∨ a.allow.contains s = false) :
    ∃ e : FTError,
      a.setAuth (some login) kwargs cookies (some s) =
        ⟨some e, kwargs, dupdate cookies cs⟩ := by
  rcases hbad with hb | hb
  · have hn : ¬ (s ∈ AUTH_SCHEMES) := contains_eq_false_iff_not_mem.mp hb
    exact ⟨FTError.authError ("unexpected auth: " ++ s),
      by simp [Authenticator.setAuth, hcs, hn]⟩
  · have hn : ¬ (s ∈ a.allow) := contains_eq_false_iff_not_mem.mp hb
    by_cases hA : s ∈ AUTH_SCHEMES
    · exact ⟨FTError.authError ("auth is not allowed: " ++ s),
        by simp [Authenticator.setAuth, hcs, hn, hA]⟩
    · exact ⟨FTError.authError ("unexpected auth: " ++ s),
        by simp [Authenticator.setAuth, hcs, hA]⟩

theorem claim_C10_witness :
    dget ((mkDefault defaultAllow "data").setCookie "alice" "sid" (some "42")).cookies "alice" =
      some [("sid", "42")] ∧
    (∃ e : FTError,
      ((mkDefault defaultAllow "data").setCookie "alice" "sid" (some "42")).setAuth
          (some "alice") emptyKwargs [] (some "bogus") =
        ⟨some e, emptyKwargs, dupdate [] [("sid", "42")]⟩) ∧
    dupdate ([] : List (String × String)) [("sid", "42")] ≠ [] :=
  ⟨by decide,
   claim_C10 ((mkDefault defaultAllow "data").setCookie "alice" "sid" (some "42"))
     "alice" "bogus" [("sid", "42")] emptyKwargs [] (by decide) (Or.inl (by decide)),
   by decide⟩

/-- Claim C4 counterexample: with the well-formed configuration
    ptype = "json" and fake allowed, injecting a body field through setAuth's
    fake scheme into a bag with neither a JSON body nor a form body creates a
    JSON body, not a form body — refuting "creates a form body containing
    exactly that one field" as a statement about every policy. -/
theorem claim_C4_counterexample :
    ctorOk (mkDefault ["fake"] "json").allow (mkDefault ["fake"] "json").ptype = true ∧
    emptyKwargs.json = none ∧ emptyKwargs.data = none ∧
    ((mkDefault ["fake"] "json").setAuth (some "bob") emptyKwargs [] (some "fake")).kwargs.data
      = none ∧
    ((mkDefault ["fake"] "json").setAuth (some "bob") emptyKwargs [] (some "fake")).kwargs.json
      = some [("LOGIN", "bob")] := by decide

/-- Claim C4 (amended): injecting a body field when neither JSON nor form
    body exists creates a body of the configured default parameter type with
    exactly that one field — a form body under ptype = "data" (the default),
    a JSON body under ptype = "json"; when a JSON body already exists, the
    field is added into it and the form body is left exactly as it was (in
    particular it stays absent). The helper is the single shared injection
    point used by the tparam, param and fake paths of setAuth. -/
theorem claim_C4 (a : Authenticator) (kwargs : Kwargs) (key val : String) :
    (kwargs.json = none → kwargs.data = none → a.ptype = "data" →
      a.paramAdd kwargs key val = { kwargs with data := some [(key, val)] }) ∧
    (kwargs.json = none → kwargs.data = none → a.ptype = "json" →
      a.paramAdd kwargs key val = { kwargs with json := some [(key, val)] }) ∧
    (∀ j, kwargs.json = some j →
      a.paramAdd kwargs key val = { kwargs with json := some (dset j key val) }) := by
  refine ⟨?_, ?_, ?_⟩
  · intro h1 h2 h3
    have : (a.ptype == "json") = false := by
      rw [h3]; decide
    simp [Authenticator.paramAdd, h1, h2, this]
  · intro h1 h2 h3
    have : (a.ptype == "json") = true := by
      rw [h3]; decide
    simp [Authenticator.paramAdd, h1, h2, this]
  · intro j hj
    simp [Authenticator.paramAdd, hj]

theorem claim_C4_witness :
    (mkDefault defaultAllow "data").paramAdd emptyKwargs "K" "V" =
      { emptyKwargs with data := some [("K", "V")] } ∧
    (mkDefault defaultAllow "json").paramAdd emptyKwargs "K" "V" =
      { emptyKwargs with json := some [("K", "V")] } ∧
    (mkDefault defaultAllow "data").paramAdd
        ({ emptyKwargs with json := some [("A", "B")] }) "K" "V" =
      { emptyKwargs with json := some (dset [("A", "B")] "K" "V") } :=
  ⟨(claim_C4 (mkDefault defaultAllow "data") emptyKwargs "K" "V").1 rfl rfl rfl,
   (claim_C4 (mkDefault defaultAllow "json") emptyKwargs "K" "V").2.1 rfl rfl rfl,
   (claim_C4 (mkDefault defaultAllow "data") _ "K" "V").2.2 [("A", "B")] rfl⟩

/-- Claim C5 counterexample: starting from a freshly constructed
    authenticator (a reachable state) the single setter call
    setCookie("bob", "c", None) deletes the (absent) cookie "c" but first
    auto-creates the per-login cookie dict, leaving an empty tombstone entry
    for "bob" in the cookie store: the entry is present although no
    credential is set for "bob". This refutes "an entry is present in the
    store if and only if the credential is currently set (no empty or
    tombstone entries remain)" for the per-login cookie store. -/
theorem claim_C5_counterexample :
    dmem ((mkDefault defaultAllow "data").setCookie "bob" "c" none).cookies "bob" = true ∧
    dget ((mkDefault defaultAllow "data").setCookie "bob" "c" none).cookies "bob" =
      some [] := by decide

/-- Claim C5 (amended): in every state reachable by setter calls, setting a
    credential to the absent sentinel removes the corresponding entry — the
    password entry, the token entry, and the named cookie inside the login's
    cookie dict — and setting a value stores exactly that value; however the
    outer cookie store may retain an empty per-login dict (auto-created by
    setCookie and never removed), which carries no cookie and is behaviorally
    inert in setAuth. For passwords and tokens no empty or tombstone entries
    can exist. -/
theorem claim_C5 (a : Authenticator) (h : Reachable a) (login name : String) :
    dmem ((a.setPass login none).2).passes login = false ∧
    dmem ((a.setToken login none).2).tokens login = false ∧
    dmem ((dget (a.setCookie login name none).cookies login).getD []) name = false ∧
    (∀ v, (a.setPass login (some v)).1 = none →
      dget ((a.setPass login (some v)).2).passes login = some v) ∧
    (∀ v, (a.setToken login (some v)).1 = none →
      dget ((a.setToken login (some v)).2).tokens login = some v) := by
  obtain ⟨n1, n2, n3, n4, e5, e6⟩ := reachable_storeInv h
  refine ⟨?_, ?_, ?_, ?_, ?_⟩
  · by_cases hp : hasPassScheme a.allow
    · simp only [Authenticator.setPass, hp, Bool.not_true, Bool.false_eq_true, if_false,
        storeSet]
      exact dmem_ddel_self login n1
    · simp only [Bool.not_eq_true] at hp
      simp only [Authenticator.setPass, hp, Bool.not_false, if_true]
      rw [e5 hp]
      rfl
  · by_cases hp : hasTokenScheme a.allow
    · simp only [Authenticator.setToken, hp, Bool.not_true, Bool.false_eq_true, if_false,
        storeSet]
      exact dmem_ddel_self login n2
    · simp only [Bool.not_eq_true] at hp
      simp only [Authenticator.setToken, hp, Bool.not_false, if_true]
      rw [e6 hp]
      rfl
  · by_cases hm : dmem a.cookies login
    · simp only [Authenticator.setCookie, hm, if_true, dget_dset_self, Option.getD_some,
        storeSet]
      apply dmem_ddel_self
      cases hg : dget a.cookies login with
      | none => simp [dkeys]
      | some i => exact n4 _ (dget_mem hg)
    · simp only [Bool.not_eq_true] at hm
      simp only [Authenticator.setCookie, hm, Bool.false_eq_true, if_false, dget_dset_self,
        Option.getD_some, storeSet]
      rfl
  · intro v hv
    by_cases hp : hasPassScheme a.allow
    · simp only [Authenticator.setPass, hp, Bool.not_true, Bool.false_eq_true, if_false,
        storeSet]
      exact dget_dset_self _ _ _
    · simp only [Bool.not_eq_true] at hp
      simp [Authenticator.setPass, hp] at hv
  · intro v hv
    by_cases hp : hasTokenScheme a.allow
    · simp only [Authenticator.setToken, hp, Bool.not_true, Bool.false_eq_true, if_false,
        storeSet]
      exact dget_dset_self _ _ _
    · simp only [Bool.not_eq_true] at hp
      simp [Authenticator.setToken, hp] at hv

theorem claim_C5_witness :
    dmem (((mkDefault defaultAllow "data").setPass "x" none).2).passes "x" = false ∧
    dmem (((mkDefault defaultAllow "data").setToken "x" none).2).tokens "x" = false ∧
    dmem ((dget ((mkDefault defaultAllow "data").setCookie "x" "c" none).cookies "x").getD [])
      "c" = false := by
  have h := claim_C5 (mkDefault defaultAllow "data")
    (Reachable.base defaultAllow "USER" "PASS" "LOGIN" "Bearer" "Auth" "auth" "AUTH" "data"
      (by decide)) "x" "c"
  exact ⟨h.1, h.2.1, h.2.2.1⟩

/-- One of the four token carriers holds the token in a setAuth outcome:
    the Authorization bearer header, the configured token header, the token
    parameter in the json or data body, or the configured cookie. -/
def tokenCarrierApplied (a : Authenticator) (tok : String) (o : SetAuthOut) : Prop :=
  dget (o.kwargs.headers.getD []) "Authorization" = some (a.bearer ++ " " ++ tok) ∨
  dget (o.kwargs.headers.getD []) a.header = some tok ∨
  (∃ b, (o.kwargs.json = some b ∨ o.kwargs.data = some b) ∧ dget b a.tparam = some tok) ∨
  dget o.cookies a.cookie = some tok

theorem putHeaders_json (kwargs : Kwargs) (headers : List (String × String)) :
    (putHeaders kwargs headers).json = kwargs.json := by
  unfold putHeaders
  split <;> rfl

theorem putHeaders_data (kwargs : Kwargs) (headers : List (String × String)) :
    (putHeaders kwargs headers).data = kwargs.data := by
  unfold putHeaders
  split <;> rfl

/-- The shared body-placement helper always leaves the injected field
    retrievable from the json body or the data body. -/
theorem paramAdd_finds (a : Authenticator) (kwargs : Kwargs) (key val : String) :
    ∃ b, ((a.paramAdd kwargs key val).json = some b ∨
          (a.paramAdd kwargs key val).data = some b) ∧ dget b key = some val := by
  unfold Authenticator.paramAdd
  cases hj : kwargs.json with
  | some j => exact ⟨dset j key val, Or.inl rfl, dget_dset_self j key val⟩
  | none =>
    cases hd : kwargs.data with
    | some d => exact ⟨dset d key val, Or.inr rfl, dget_dset_self d key val⟩
    | none =>
      by_cases hp : (a.ptype == "json") = true
      · exact ⟨[(key, val)], Or.inl (by simp [hp]), dget_dset_self [] key val⟩
      · simp only [Bool.not_eq_true] at hp
        exact ⟨[(key, val)], Or.inr (by simp [hp]), dget_dset_self [] key val⟩

theorem hasTokenScheme_cases {allow : List String} (h : hasTokenScheme allow = true) :
    "bearer" ∈ allow ∨ "header" ∈ allow ∨ "cookie" ∈ allow ∨ "tparam" ∈ allow := by
  unfold hasTokenScheme at h
  rw [List.any_eq_true] at h
  obtain ⟨x, hx, hxt⟩ := h
  have hmem : x ∈ TOKEN_SCHEMES := contains_eq_true_iff_mem.mp hxt
  simp only [TOKEN_SCHEMES, List.mem_cons, List.not_mem_nil, or_false] at hmem
  rcases hmem with h1 | h1 | h1 | h1 <;> subst h1
  · exact Or.inl hx
  · exact Or.inr (Or.inl hx)
  · exact Or.inr (Or.inr (Or.inl hx))
  · exact Or.inr (Or.inr (Or.inr hx))

theorem passAuthSel_false {s : String} (hb : s ≠ "basic") (hp : s ≠ "param") :
    passAuthSel (some s) = false := by
  simp [passAuthSel, hb, hp]

/-- The password store is never consulted when a token is stored for the
    login and the explicit scheme, if any, is not password-carrying: the
    outcome of setAuth is the same for any contents of the password store. -/
theorem setAuth_passes_indep (a : Authenticator) (login : String) (kwargs : Kwargs)
    (cookies : List (String × String)) (au : Option String) (ps : List (String × String))
    (htok : dmem a.tokens login = true)
    (hb : au ≠ some "basic") (hp : au ≠ some "param") :
    a.setAuth (some login) kwargs cookies au =
      ({ a with passes := ps } : Authenticator).setAuth (some login) kwargs cookies au := by
  cases au with
  | none =>
    have htk : tokenAuthSel none = true := rfl
    simp [Authenticator.setAuth, Authenticator.tryAuth, Authenticator.paramAdd, htok, htk]
  | some s =>
    have hps : passAuthSel (some s) = false :=
      passAuthSel_false (fun he => hb (by rw [he])) (fun he => hp (by rw [he]))
    by_cases hA : s ∈ AUTH_SCHEMES
    · by_cases hal : s ∈ a.allow
      · by_cases htk : tokenAuthSel (some s) = true
        · simp [Authenticator.setAuth, Authenticator.tryAuth, Authenticator.paramAdd,
            hA, hal, htok, htk]
        · simp only [Bool.not_eq_true] at htk
          simp [Authenticator.setAuth, Authenticator.tryAuth, Authenticator.paramAdd,
            hA, hal, htok, htk, hps]
      · simp [Authenticator.setAuth, hA, hal]
    · simp [Authenticator.setAuth, hA]

/-- With a stored token and no explicit scheme, setAuth succeeds and applies
    one of the four token carriers (whichever is allowed first). -/
theorem setAuth_token_success (a : Authenticator) (login tok : String) (kwargs : Kwargs)
    (cookies : List (String × String))
    (htok : dget a.tokens login = some tok)
    (hallow : hasTokenScheme a.allow = true) :
    (a.setAuth (some login) kwargs cookies none).err = none ∧
    tokenCarrierApplied a tok (a.setAuth (some login) kwargs cookies none) := by
  have hmem : dmem a.tokens login = true := by simp [dmem, htok]
  have e : (dget a.tokens login).getD "" = tok := by rw [htok]; rfl
  have htsel : tokenAuthSel none = true := rfl
  by_cases cb : "bearer" ∈ a.allow
  · have hout : a.setAuth (some login) kwargs cookies none =
        ⟨none,
          putHeaders kwargs (dset (kwargs.headers.getD []) "Authorization"
            (a.bearer ++ " " ++ tok)),
          dupdate cookies ((dget a.cookies login).getD [])⟩ := by
      simp [Authenticator.setAuth, Authenticator.tryAuth, hmem, htsel, cb, e]
    rw [hout]
    refine ⟨rfl, Or.inl ?_⟩
    simp [putHeaders, dset_isEmpty, dget_dset_self]
  · by_cases ch : "header" ∈ a.allow
    · have hout : a.setAuth (some login) kwargs cookies none =
          ⟨none, putHeaders kwargs (dset (kwargs.headers.getD []) a.header tok),
            dupdate cookies ((dget a.cookies login).getD [])⟩ := by
        simp [Authenticator.setAuth, Authenticator.tryAuth, hmem, htsel, cb, ch, e]
      rw [hout]
      refine ⟨rfl, Or.inr (Or.inl ?_)⟩
      simp [putHeaders, dset_isEmpty, dget_dset_self]
    · by_cases ct : "tparam" ∈ a.allow
      · have hout : a.setAuth (some login) kwargs cookies none =
            ⟨none, putHeaders (a.paramAdd kwargs a.tparam tok) (kwargs.headers.getD []),
              dupdate cookies ((dget a.cookies login).getD [])⟩ := by
          simp [Authenticator.setAuth, Authenticator.tryAuth, hmem, htsel, cb, ch, ct, e]
        rw [hout]
        refine ⟨rfl, Or.inr (Or.inr (Or.inl ?_))⟩
        obtain ⟨b, hb1, hb2⟩ := paramAdd_finds a kwargs a.tparam tok
        refine ⟨b, ?_, hb2⟩
        rcases hb1 with h1 | h1
        · exact Or.inl (by rw [putHeaders_json]; exact h1)
        · exact Or.inr (by rw [putHeaders_data]; exact h1)
      · by_cases cc : "cookie" ∈ a.allow
        · have hout : a.setAuth (some login) kwargs cookies none =
              ⟨none, putHeaders kwargs (kwargs.headers.getD []),
                dset (dupdate cookies ((dget a.cookies login).getD [])) a.cookie tok⟩ := by
            simp [Authenticator.setAuth, Authenticator.tryAuth, hmem, htsel, cb, ch, ct, cc, e]
          rw [hout]
          exact ⟨rfl, Or.inr (Or.inr (Or.inr (dget_dset_self _ _ _)))⟩
        · rcases hasTokenScheme_cases hallow with h1 | h1 | h1 | h1
          · exact absurd h1 cb
          · exact absurd h1 ch
          · exact absurd h1 cc
          · exact absurd h1 ct

/-- Claim C3: for a login with both a stored token and a stored password
    (some token scheme being allowed, as any state reached through setToken
    guarantees), setAuth with scheme unset succeeds applying a token carrier
    and never consults the stored password (the outcome is identical for any
    contents of the password store); moreover the password branch is
    unreachable for every scheme argument other than the password-carrying
    "basic" and "param" — with a token stored, the outcome is
    password-independent for all such calls. -/
theorem claim_C3 (a : Authenticator) (login tok : String)
    (htok : dget a.tokens login = some tok)
    (hallow : hasTokenScheme a.allow = true)
    (_hpw : dmem a.passes login = true) :
    (∀ (kwargs : Kwargs) (cookies : List (String × String)) (ps : List (String × String)),
      a.setAuth (some login) kwargs cookies none =
        ({ a with passes := ps } : Authenticator).setAuth (some login) kwargs cookies none) ∧
    (∀ (kwargs : Kwargs) (cookies : List (String × String)),
      (a.setAuth (some login) kwargs cookies none).err = none ∧
      tokenCarrierApplied a tok (a.setAuth (some login) kwargs cookies none)) ∧
    (∀ (au : Option String) (kwargs : Kwargs) (cookies : List (String × String))
        (ps : List (String × String)), au ≠ some "basic" → au ≠ some "param" →
      a.setAuth (some login) kwargs cookies au =
        ({ a with passes := ps } : Authenticator).setAuth (some login) kwargs cookies au) := by
  have hmem : dmem a.tokens login = true := by simp [dmem, htok]
  refine ⟨?_, ?_, ?_⟩
  · intro kwargs cookies ps
    exact setAuth_passes_indep a login kwargs cookies none ps hmem (by simp) (by simp)
  · intro kwargs cookies
    exact setAuth_token_success a login tok kwargs cookies htok hallow
  · intro au kwargs cookies ps hb hp
    exact setAuth_passes_indep a login kwargs cookies au ps hmem hb hp

/-- A reachable authenticator holding both a password and a token for alice. -/
def authWithBoth : Authenticator :=
  ((((mkDefault defaultAllow "data").setPass "alice" (some "pw")).2).setToken "alice"
    (some "T")).2

theorem claim_C3_witness :
    dget authWithBoth.tokens "alice" = some "T" ∧
    hasTokenScheme authWithBoth.allow = true ∧
    dmem authWithBoth.passes "alice" = true ∧
    (authWithBoth.setAuth (some "alice") emptyKwargs [] none).err = none ∧
    tokenCarrierApplied authWithBoth "T"
      (authWithBoth.setAuth (some "alice") emptyKwargs [] none) :=
  ⟨by decide, by decide, by decide,
   ((claim_C3 authWithBoth "alice" "T" (by decide) (by decide) (by decide)).2.1
     emptyKwargs []).1,
   ((claim_C3 authWithBoth "alice" "T" (by decide) (by decide) (by decide)).2.1
     emptyKwargs []).2⟩

/-- Whether setAuth raised an AuthError. -/
def isErr (o : SetAuthOut) : Bool := o.err.isSome

/-- Claim C1 counterexample: with allow = ["bearer"], the explicitly
    requested scheme "bearer" is a member of the allowed set, yet setAuth
    raises AuthError (the "no authentication" fall-through) because no token
    is stored for the login — refuting "raises AuthError iff the scheme is
    not allowed, regardless of stored credentials". -/
theorem claim_C1_counterexample :
    (mkDefault ["bearer"] "data").allow.contains "bearer" = true ∧
    ((mkDefault ["bearer"] "data").setAuth (some "alice") emptyKwargs [] (some "bearer")).err =
      some (FTError.authError "no authentication") := by decide

/-- Claim C1 (amended): for a well-formed policy, setAuth with an explicitly
    requested scheme s raises AuthError exactly when s is not allowed, or s
    is token-carrying and the login has no stored token, or s is
    password-carrying and the login has no stored password; in particular a
    disallowed (or unknown) scheme always raises, regardless of stored
    credentials, but an allowed scheme still raises when the login lacks the
    credential the scheme carries (fake and none never raise once allowed). -/
theorem claim_C1 (a : Authenticator) (hwf : ctorOk a.allow a.ptype = true)
    (login s : String) (kwargs : Kwargs) (cookies : List (String × String)) :
    isErr (a.setAuth (some login) kwargs cookies (some s)) =
      (!(a.allow.contains s) ||
       (TOKEN_SCHEMES.contains s && !(dmem a.tokens login)) ||
       (PASS_SCHEMES.contains s && !(dmem a.passes login))) := by
  by_cases hal : s ∈ a.allow
  · have hc : a.allow.contains s = true := contains_eq_true_iff_mem.mpr hal
    have hA : s ∈ AUTH_SCHEMES := by
      have h2 := hwf
      simp only [ctorOk, Bool.and_eq_true] at h2
      exact contains_eq_true_iff_mem.mp (List.all_eq_true.mp h2.1 s hal)
    have hmem8 : s = "fake" ∨ s = "none" ∨ s = "bearer" ∨ s = "header" ∨ s = "cookie" ∨
        s = "tparam" ∨ s = "basic" ∨ s = "param" := by
      simpa [AUTH_SCHEMES] using hA
    rcases hmem8 with rfl | rfl | rfl | rfl | rfl | rfl | rfl | rfl <;>
      cases ht : dmem a.tokens login <;> cases hp2 : dmem a.passes login <;>
        simp [Authenticator.setAuth, Authenticator.tryAuth, tokenAuthSel, passAuthSel,
          isErr, AUTH_SCHEMES, TOKEN_SCHEMES, PASS_SCHEMES, hA, hal, hc, ht, hp2]
  · have hc : a.allow.contains s = false := contains_eq_false_iff_not_mem.mpr hal
    by_cases hA : s ∈ AUTH_SCHEMES
    · simp [Authenticator.setAuth, isErr, hA, hal, hc]
    · simp [Authenticator.setAuth, isErr, hA, hc]
      exact Or.inl (Or.inl hal)

theorem claim_C1_witness :
    ctorOk (mkDefault ["bearer"] "data").allow (mkDefault ["bearer"] "data").ptype = true ∧
    isErr ((mkDefault ["bearer"] "data").setAuth (some "alice") emptyKwargs []
        (some "bearer")) =
      (!((mkDefault ["bearer"] "data").allow.contains "bearer") ||
       (TOKEN_SCHEMES.contains "bearer" &&
         !(dmem (mkDefault ["bearer"] "data").tokens "alice")) ||
       (PASS_SCHEMES.contains "bearer" &&
         !(dmem (mkDefault ["bearer"] "data").passes "alice"))) :=
  ⟨by decide,
   claim_C1 (mkDefault ["bearer"] "data") (by decide) "alice" "bearer" emptyKwargs []⟩

end FlaskTester
